import Mathlib

/-!
Verification of the authentication core of the `ema` service layer.

The Python source (`service_layer/services/auth_service.py`,
`service_layer/services/captcha_service.py`, `service_layer/models/user.py`,
`service_layer/repositories/file_repository.py`) is embedded shallowly:

* the three JSON-file repositories become finite association lists inside an
  explicit `AuthState` record (a Python `dict` keyed by username, plus an
  append-only audit log of messages; the repository adds the timestamp prefix
  when writing a line, so the log is modelled as the list of messages passed
  to `log_event`);
* every service method becomes a pure function from the old state to the
  result paired with the new state;
* `bcrypt.hashpw` / `bcrypt.checkpw` are external primitives, so the
  operations that use them are parameterised by a hash function
  `hashp : String → String` and a verifier `verify : String → String → Bool`;
* `datetime.now().isoformat()` (stored in the `last_attempt` field) is
  passed in as an opaque `now : String` argument;
* Python `int(answer)` on a string is modelled as: strip surrounding
  whitespace, then an optional single sign followed by a non-empty run of
  decimal digits (`TypeError`/`ValueError` become `none`).
-/

namespace EMA

/-- One record of `users.json`: the dict value stored per username by
`UserRepository`, with keys `password` (the stored hash), `role`, `email`. -/
structure UserData where
  password : String
  role : String
  email : String
deriving DecidableEq, Repr

/-- One record of `failed_attempts.json`: the dict value stored per username
by `FailedAttemptsRepository`, with keys `count` and `last_attempt`. -/
structure AttemptData where
  count : Nat
  last_attempt : String
deriving DecidableEq, Repr

/-- The combined persistent state behind the three repositories handed to
`AuthenticationService`: the user store, the failed-attempt store and the
audit log (list of messages in append order). -/
structure AuthState where
  users : List (String × UserData)
  attempts : List (String × AttemptData)
  audit : List String
deriving DecidableEq, Repr

/-- Dict read: `d.get(k)` on a JSON object modelled as an association list. -/
def lookupKey {α : Type} : List (String × α) → String → Option α
  | [], _ => none
  | (k, v) :: rest, u => if k = u then some v else lookupKey rest u

/-- Dict write: `d[k] = v` (replace the entry if the key is present,
otherwise append it). -/
def setKey {α : Type} : List (String × α) → String → α → List (String × α)
  | [], k, v => [(k, v)]
  | (k0, v0) :: rest, k, v =>
      if k0 = k then (k, v) :: rest else (k0, v0) :: setKey rest k v

/-- Dict delete: `del d[k]` (a dict has at most one entry per key, so
removing every pair with that key is the same operation). -/
def delKey {α : Type} : List (String × α) → String → List (String × α)
  | [], _ => []
  | (k0, v0) :: rest, k =>
      if k0 = k then delKey rest k else (k0, v0) :: delKey rest k

/-- `UserRepository.find_by_username`. -/
def find_by_username (s : AuthState) (u : String) : Option UserData :=
  lookupKey s.users u

/-- `UserRepository.save_user`. -/
def save_user (s : AuthState) (u : String) (d : UserData) : AuthState :=
  { s with users := setKey s.users u d }

/-- `UserRepository.user_exists`. -/
def user_exists (s : AuthState) (u : String) : Bool :=
  (lookupKey s.users u).isSome

/-- `FailedAttemptsRepository.get_attempts`. -/
def get_attempts (s : AuthState) (u : String) : Option AttemptData :=
  lookupKey s.attempts u

/-- `FailedAttemptsRepository.save_attempt`. -/
def save_attempt (s : AuthState) (u : String) (d : AttemptData) : AuthState :=
  { s with attempts := setKey s.attempts u d }

/-- `FailedAttemptsRepository.clear_attempts` (delete the record if present;
deleting an absent key is a no-op, as in the source). -/
def clear_attempts (s : AuthState) (u : String) : AuthState :=
  { s with attempts := delKey s.attempts u }

/-- `AuditRepository.log_event` (the repository prepends the timestamp when
writing the line; the log is modelled as the message sequence). -/
def log_event (s : AuthState) (m : String) : AuthState :=
  { s with audit := s.audit ++ [m] }

/-- The stored failed-attempt count of a username, an absent record counting
as 0 (`attempts.get("count", 0)` with `attempts` possibly `None`). -/
def attemptCount (s : AuthState) (u : String) : Nat :=
  match lookupKey s.attempts u with
  | some a => a.count
  | none => 0

/-- `service_layer/models/user.py` `User` dataclass. -/
structure User where
  username : String
  email : String
  role : String
  password_hash : String
deriving DecidableEq, Repr

/-- `service_layer/models/user.py` `AuthenticationResult` dataclass. -/
structure AuthenticationResult where
  success : Bool
  user : Option User
  error_message : Option String
  requires_captcha : Bool
deriving DecidableEq, Repr

/-- ASCII uppercase letter, the characters matched by `re.search("[A-Z]", ·)`. -/
def isUpperAZ (c : Char) : Bool := 'A' ≤ c && c ≤ 'Z'

/-- ASCII lowercase letter, the characters matched by `re.search("[a-z]", ·)`. -/
def isLowerAZ (c : Char) : Bool := 'a' ≤ c && c ≤ 'z'

/-- ASCII digit, the characters matched by `re.search("[0-9]", ·)`. -/
def isDigit09 (c : Char) : Bool := '0' ≤ c && c ≤ '9'

/-- The fixed special-character class of `PasswordService.is_valid_password`. -/
def specialChars : List Char := "!@#$%^&*(),.?\":\x7b\x7d|<>".data

/-- Membership in the special-character class. -/
def isSpecialChar (c : Char) : Bool := specialChars.contains c

/-- `PasswordService.is_valid_password`: the early-return chain of checks. -/
def is_valid_password (p : String) : Bool :=
  if p.data.length < 8 then false
  else if !p.data.any isUpperAZ then false
  else if !p.data.any isLowerAZ then false
  else if !p.data.any isDigit09 then false
  else if !p.data.any isSpecialChar then false
  else true

/-- `AuthenticationService._is_account_locked`: a record exists and its
count is at least 3 (`attempts and attempts.get("count", 0) >= 3`; the
`None` / falsy outcome is the boolean `false`). -/
def is_account_locked (s : AuthState) (u : String) : Bool :=
  match lookupKey s.attempts u with
  | some a => decide (3 ≤ a.count)
  | none => false

/-- `AuthenticationService.needs_captcha`. -/
def needs_captcha (s : AuthState) (u : String) : Bool :=
  is_account_locked s u

/-- `AuthenticationService._record_failed_attempt`: increment an existing
count or start at 1, stamping `last_attempt` with the current time. -/
def record_failed_attempt (now : String) (s : AuthState) (u : String) : AuthState :=
  match lookupKey s.attempts u with
  | some a => save_attempt s u ⟨a.count + 1, now⟩
  | none => save_attempt s u ⟨1, now⟩

/-- `AuthenticationService.authenticate`, parameterised by the bcrypt
verifier and the current time; returns the result together with the state
after the call. -/
def authenticate (verify : String → String → Bool) (now : String)
    (s : AuthState) (username password : String) :
    AuthenticationResult × AuthState :=
  if is_account_locked s username then
    (⟨false, none, some "Account locked due to multiple failed attempts", true⟩, s)
  else
    match lookupKey s.users username with
    | none =>
        let s1 := record_failed_attempt now s username
        let s2 := log_event s1
          ("Failed login attempt for non-existent username: " ++ username)
        (⟨false, none, some "Invalid username or password", false⟩, s2)
    | some user_data =>
        if verify password user_data.password then
          let s1 := clear_attempts s username
          let u : User := ⟨username, user_data.email, user_data.role, user_data.password⟩
          let s2 := log_event s1 ("Successful login: " ++ username)
          (⟨true, some u, none, false⟩, s2)
        else
          let s1 := record_failed_attempt now s username
          let s2 := log_event s1 ("Failed login attempt for username: " ++ username)
          (⟨false, none, some "Invalid username or password",
            is_account_locked s1 username⟩, s2)

/-- Scan of the text after the `@` for `re.match("[^@]+@[^@]+\\.[^@]+", ·)`:
looks for a `.` preceded (within the scan) by at least one character, all of
them non-`@`, and followed by a non-`@` character; `seen` records whether a
character has already been consumed before the candidate dot. -/
def findDotAfterAt : Bool → List Char → Bool
  | _, [] => false
  | seen, c :: rest =>
      if c = '@' then false
      else if seen && (c == '.') &&
          (match rest with | d :: _ => d != '@' | [] => false) then true
      else findDotAfterAt true rest

/-- The email shape check of `create_user`:
`re.match("[^@]+@[^@]+\\.[^@]+", email)` (a prefix match anchored at the
start: a non-empty `@`-free part, an `@`, then a non-empty `@`-free part, a
dot and at least one further non-`@` character). -/
def matches_email (email : String) : Bool :=
  let lpart := email.data.takeWhile (fun c => c != '@')
  match email.data.drop lpart.length with
  | '@' :: t => (!lpart.isEmpty) && findDotAfterAt false t
  | _ => false

/-- `AuthenticationService.create_user`, parameterised by the bcrypt hash. -/
def create_user (hashp : String → String) (s : AuthState)
    (username email password role : String) : Bool × AuthState :=
  if user_exists s username then (false, s)
  else if !is_valid_password password then (false, s)
  else if !matches_email email then (false, s)
  else
    let s1 := save_user s username ⟨hashp password, role, email⟩
    let s2 := log_event s1 ("User created: " ++ username ++ " (" ++ role ++ ")")
    (true, s2)

/-- Rendering of an optional argument inside the `update_user` audit
f-string (`None` prints as the text `None`). -/
def pyShowOpt : Option String → String
  | some s => s
  | none => "None"

/-- `AuthenticationService.update_user`: partial update; a field is applied
only when the argument is truthy (present and non-empty), mirroring the
Python `if email:` / `if role:` tests. -/
def update_user (s : AuthState) (username : String)
    (email role : Option String) : Bool × AuthState :=
  match lookupKey s.users username with
  | none => (false, s)
  | some d =>
      let d1 := match email with
        | some e => if e ≠ "" then { d with email := e } else d
        | none => d
      let d2 := match role with
        | some r => if r ≠ "" then { d1 with role := r } else d1
        | none => d1
      let s1 := save_user s username d2
      let s2 := log_event s1 ("Updated user info: " ++ username ++ ", role=" ++
        pyShowOpt role ++ ", email=" ++ pyShowOpt email)
      (true, s2)

/-- `AuthenticationService.admin_reset_password`, parameterised by the
bcrypt hash. -/
def admin_reset_password (hashp : String → String) (s : AuthState)
    (target_username new_password admin_username : String) : Bool × AuthState :=
  if !is_valid_password new_password then (false, s)
  else
    match lookupKey s.users target_username with
    | none => (false, s)
    | some d =>
        let s1 := save_user s target_username { d with password := hashp new_password }
        let s2 := log_event s1 ("Admin " ++ admin_username ++
          " reset password for user: " ++ target_username)
        (true, s2)

/-- `AuthenticationService.unlock_user`. -/
def unlock_user (s : AuthState) (username admin_username : String) :
    Bool × AuthState :=
  match lookupKey s.attempts username with
  | some _ =>
      let s1 := clear_attempts s username
      let s2 := log_event s1 ("Admin " ++ admin_username ++
        " unlocked user: " ++ username)
      (true, s2)
  | none => (false, s)

/-- ASCII whitespace stripped by `str.strip()` (the characters relevant to
decimal integer literals). -/
def isPySpace (c : Char) : Bool :=
  c == ' ' || c == '\t' || c == '\n' || c == '\r' || c == '\x0b' || c == '\x0c'

/-- `str.strip()`: drop surrounding whitespace. -/
def pyStrip (cs : List Char) : List Char :=
  ((cs.dropWhile isPySpace).reverse.dropWhile isPySpace).reverse

/-- Accumulating decimal parse of an all-digit run. -/
def parseDigitsAux : List Char → Nat → Option Nat
  | [], acc => some acc
  | c :: rest, acc =>
      if isDigit09 c then parseDigitsAux rest (acc * 10 + (c.toNat - '0'.toNat))
      else none

/-- A non-empty run of decimal digits, as a number. -/
def parseDigits : List Char → Option Nat
  | [] => none
  | cs => parseDigitsAux cs 0

/-- Optional single sign followed by digits: the body of a Python decimal
integer literal after stripping. -/
def parseSigned (cs : List Char) : Option Int :=
  match cs with
  | '+' :: rest => (parseDigits rest).map (fun n => (n : Int))
  | '-' :: rest => (parseDigits rest).map (fun n => -(n : Int))
  | _ => (parseDigits cs).map (fun n => (n : Int))

/-- Python `int(s)` on a string: strip surrounding whitespace, then parse an
optionally signed decimal literal; `none` is the raised `ValueError`. -/
def pyIntOfString (s : String) : Option Int :=
  parseSigned (pyStrip s.data)

/-- `CaptchaService.validate_answer`: `int(answer) == (x + y)` with
`ValueError`/`TypeError` (the latter from `answer = None`) caught and turned
into `False`; total by construction, so it never raises. -/
def validate_answer (x y : Int) (answer : Option String) : Bool :=
  match answer with
  | none => false
  | some s =>
      match pyIntOfString s with
      | none => false
      | some n => n == x + y

/-- A concrete stand-in for `bcrypt.hashpw` used only to build executable
witnesses (any injective tagging works). -/
def toyHash (p : String) : String := "H:" ++ p

/-- The matching stand-in for `bcrypt.checkpw`. -/
def toyVerify (p h : String) : Bool := h == "H:" ++ p

/-- Empty stores. -/
def s0 : AuthState := ⟨[], [], []⟩

/-- One user `alice` with password hash `H:pw`, no failed attempts. -/
def sAlice : AuthState :=
  ⟨[("alice", ⟨"H:pw", "viewer", "a@x.com"⟩)], [], []⟩

/-- `alice` as above, with 2 accumulated failed attempts. -/
def sAlice2 : AuthState :=
  ⟨[("alice", ⟨"H:pw", "viewer", "a@x.com"⟩)], [("alice", ⟨2, "t0"⟩)], []⟩

/-- User `bob` with 3 accumulated failed attempts (locked). -/
def sBobLocked : AuthState :=
  ⟨[("bob", ⟨"H:old", "viewer", "b@x.com"⟩)], [("bob", ⟨3, "t0"⟩)], []⟩

/-- No user record for `ghost`, but 2 accumulated failed attempts. -/
def sGhost2 : AuthState :=
  ⟨[], [("ghost", ⟨2, "t0"⟩)], []⟩

/-! ## Association-list lemmas -/

theorem lookup_setKey_self {α : Type} (l : List (String × α)) (k : String) (v : α) :
    lookupKey (setKey l k v) k = some v := by
  induction l with
  | nil => simp [setKey, lookupKey]
  | cons p rest ih =>
      obtain ⟨k0, v0⟩ := p
      by_cases h : k0 = k
      · simp [setKey, lookupKey, h]
      · simp [setKey, lookupKey, h, ih]

theorem lookup_setKey_ne {α : Type} (l : List (String × α)) (k k2 : String) (v : α)
    (h : k2 ≠ k) : lookupKey (setKey l k v) k2 = lookupKey l k2 := by
  have hk : ¬(k = k2) := fun e => h e.symm
  induction l with
  | nil => simp [setKey, lookupKey, hk]
  | cons p rest ih =>
      obtain ⟨k0, v0⟩ := p
      by_cases h0 : k0 = k
      · subst h0
        simp [setKey, lookupKey, hk]
      · simp [setKey, lookupKey, h0, ih]

theorem lookup_delKey_self {α : Type} (l : List (String × α)) (k : String) :
    lookupKey (delKey l k) k = none := by
  induction l with
  | nil => simp [delKey, lookupKey]
  | cons p rest ih =>
      obtain ⟨k0, v0⟩ := p
      by_cases h : k0 = k
      · simpa [delKey, h] using ih
      · simpa [delKey, lookupKey, h] using ih

theorem lookup_delKey_ne {α : Type} (l : List (String × α)) (k k2 : String)
    (h : k2 ≠ k) : lookupKey (delKey l k) k2 = lookupKey l k2 := by
  induction l with
  | nil => simp [delKey, lookupKey]
  | cons p rest ih =>
      obtain ⟨k0, v0⟩ := p
      by_cases h0 : k0 = k
      · have hk : ¬(k0 = k2) := fun e => h (h0 ▸ e.symm ▸ rfl)
        have hk2 : ¬(k = k2) := fun e => h e.symm
        simp [delKey, lookupKey, h0, hk, hk2, ih]
      · simp [delKey, lookupKey, h0, ih]

theorem attemptCount_record (now : String) (s : AuthState) (u : String) :
    attemptCount (record_failed_attempt now s u) u = attemptCount s u + 1 := by
  unfold record_failed_attempt attemptCount
  cases h : lookupKey s.attempts u <;>
    simp [h, save_attempt, lookup_setKey_self]

theorem locked_record_iff (now : String) (s : AuthState) (u : String) :
    is_account_locked (record_failed_attempt now s u) u = true ↔
      3 ≤ attemptCount s u + 1 := by
  unfold record_failed_attempt is_account_locked attemptCount
  cases h : lookupKey s.attempts u <;>
    simp [h, save_attempt, lookup_setKey_self]

theorem attemptCount_log (s : AuthState) (m u : String) :
    attemptCount (log_event s m) u = attemptCount s u := rfl

theorem is_account_locked_log (s : AuthState) (m u : String) :
    is_account_locked (log_event s m) u = is_account_locked s u := rfl

/-! ## Branch equations for `authenticate` -/

theorem authenticate_locked (verify : String → String → Bool) (now : String)
    (s : AuthState) (u p : String) (h : is_account_locked s u = true) :
    authenticate verify now s u p =
      (⟨false, none, some "Account locked due to multiple failed attempts", true⟩, s) := by
  unfold authenticate
  simp [h]

theorem authenticate_absent (verify : String → String → Bool) (now : String)
    (s : AuthState) (u p : String) (hl : is_account_locked s u = false)
    (hu : lookupKey s.users u = none) :
    authenticate verify now s u p =
      (⟨false, none, some "Invalid username or password", false⟩,
       log_event (record_failed_attempt now s u)
         ("Failed login attempt for non-existent username: " ++ u)) := by
  unfold authenticate
  simp [hl, hu]

theorem authenticate_match (verify : String → String → Bool) (now : String)
    (s : AuthState) (u p : String) (d : UserData)
    (hl : is_account_locked s u = false) (hu : lookupKey s.users u = some d)
    (hv : verify p d.password = true) :
    authenticate verify now s u p =
      (⟨true, some ⟨u, d.email, d.role, d.password⟩, none, false⟩,
       log_event (clear_attempts s u) ("Successful login: " ++ u)) := by
  unfold authenticate
  simp [hl, hu, hv]

theorem authenticate_mismatch (verify : String → String → Bool) (now : String)
    (s : AuthState) (u p : String) (d : UserData)
    (hl : is_account_locked s u = false) (hu : lookupKey s.users u = some d)
    (hv : verify p d.password = false) :
    authenticate verify now s u p =
      (⟨false, none, some "Invalid username or password",
         is_account_locked (record_failed_attempt now s u) u⟩,
       log_event (record_failed_attempt now s u)
         ("Failed login attempt for username: " ++ u)) := by
  unfold authenticate
  simp [hl, hu, hv]

/-! ## Claims -/

/-- C5: `is_valid_password p` is true iff `p` has length at least 8 and
contains at least one uppercase ASCII letter, one lowercase ASCII letter,
one digit, and one character of the fixed special set. -/
theorem password_policy_characterisation (p : String) :
    is_valid_password p = true ↔
      (8 ≤ p.data.length ∧ (∃ c ∈ p.data, isUpperAZ c = true) ∧
       (∃ c ∈ p.data, isLowerAZ c = true) ∧ (∃ c ∈ p.data, isDigit09 c = true) ∧
       (∃ c ∈ p.data, isSpecialChar c = true)) := by
  unfold is_valid_password
  by_cases h1 : p.data.length < 8 <;>
    by_cases h2 : p.data.any isUpperAZ <;>
    by_cases h3 : p.data.any isLowerAZ <;>
    by_cases h4 : p.data.any isDigit09 <;>
    by_cases h5 : p.data.any isSpecialChar <;>
    simp_all [List.any_eq_true]

/-- C9: `validate_answer x y answer` is true iff the answer is present and,
after stripping surrounding whitespace, parses as a signed decimal integer
equal to `x + y`; on `none`, empty or non-numeric input it is false, and the
function is total, so it never raises. -/
theorem captcha_validate_characterisation (x y : Int) (answer : Option String) :
    validate_answer x y answer = true ↔
      ∃ s, answer = some s ∧ parseSigned (pyStrip s.data) = some (x + y) := by
  cases answer with
  | none => simp [validate_answer]
  | some s =>
      unfold validate_answer pyIntOfString
      cases h : parseSigned (pyStrip s.data) with
      | none => simp [h]
      | some n => simp [h, beq_iff_eq]

/-- C1: `needs_captcha` holds exactly when the stored attempt count is at
least 3 (absent record = 0); a failed `authenticate` on a not-locked
username increments the count by 1 (starting at 1 with no record, since the
absent count is 0); and a wrong-password `authenticate` whose increment
reaches 3 returns `requires_captcha = true`. -/
theorem lockout_threshold_and_increment (verify : String → String → Bool)
    (now : String) (s : AuthState) (u p : String) :
    (needs_captcha s u = true ↔ 3 ≤ attemptCount s u) ∧
    (is_account_locked s u = false →
      (authenticate verify now s u p).1.success = false →
      attemptCount (authenticate verify now s u p).2 u = attemptCount s u + 1) ∧
    (∀ d, is_account_locked s u = false → lookupKey s.users u = some d →
      verify p d.password = false → 3 ≤ attemptCount s u + 1 →
      (authenticate verify now s u p).1.requires_captcha = true) := by
  refine ⟨?_, ?_, ?_⟩
  · unfold needs_captcha is_account_locked attemptCount
    cases h : lookupKey s.attempts u <;> simp [h]
  · intro hl hs
    cases hu : lookupKey s.users u with
    | none =>
        rw [authenticate_absent verify now s u p hl hu]
        exact (attemptCount_log _ _ _).trans (attemptCount_record now s u)
    | some d =>
        cases hv : verify p d.password with
        | true =>
            rw [authenticate_match verify now s u p d hl hu hv] at hs
            exact absurd hs (by simp)
        | false =>
            rw [authenticate_mismatch verify now s u p d hl hu hv]
            exact (attemptCount_log _ _ _).trans (attemptCount_record now s u)
  · intro d hl hu hv h3
    rw [authenticate_mismatch verify now s u p d hl hu hv]
    exact (locked_record_iff now s u).mpr h3

/-- C1 witness: the three parts of the lockout claim at concrete stores:
`bob` with 3 attempts is flagged, a failed login for `alice` takes her count
from 0 to 1, and the wrong password that takes `alice` from 2 to 3 attempts
already returns `requires_captcha = true`. -/
theorem lockout_threshold_and_increment_witness :
    (needs_captcha sBobLocked "bob" = true ↔ 3 ≤ attemptCount sBobLocked "bob") ∧
    attemptCount (authenticate toyVerify "t1" sAlice "alice" "wrong").2 "alice" =
      attemptCount sAlice "alice" + 1 ∧
    (authenticate toyVerify "t1" sAlice2 "alice" "wrong").1.requires_captcha = true :=
  ⟨(lockout_threshold_and_increment toyVerify "t1" sBobLocked "bob" "x").1,
   (lockout_threshold_and_increment toyVerify "t1" sAlice "alice" "wrong").2.1
     (by decide) (by decide),
   (lockout_threshold_and_increment toyVerify "t1" sAlice2 "alice" "wrong").2.2
     ⟨"H:pw", "viewer", "a@x.com"⟩ (by decide) (by decide) (by decide) (by decide)⟩

/-- C2: for a locked username, `authenticate` returns the fixed locked
result, leaves the whole state (users, attempts, audit) unchanged, and its
result is independent of the password supplied, of the verifier and of the
entire user store — no record lookup and no password verification can
influence it. -/
theorem locked_short_circuit (verify verify2 : String → String → Bool)
    (now : String) (s : AuthState) (users2 : List (String × UserData))
    (u p p2 : String) (h : is_account_locked s u = true) :
    authenticate verify now s u p =
      (⟨false, none, some "Account locked due to multiple failed attempts", true⟩, s) ∧
    (authenticate verify2 now { s with users := users2 } u p2).1 =
      (authenticate verify now s u p).1 := by
  have h2 : is_account_locked { s with users := users2 } u = true := h
  rw [authenticate_locked verify now s u p h,
      authenticate_locked verify2 now _ u p2 h2]
  exact ⟨rfl, rfl⟩

/-- C2 witness: the locked short-circuit at the concrete store where `bob`
has 3 failed attempts, with his correct password and an always-accepting
verifier on a different user store on the second run. -/
theorem locked_short_circuit_witness :
    authenticate toyVerify "t1" sBobLocked "bob" "old" =
      (⟨false, none, some "Account locked due to multiple failed attempts", true⟩,
       sBobLocked) ∧
    (authenticate (fun _ _ => true) "t1" { sBobLocked with users := [] } "bob" "zzz").1 =
      (authenticate toyVerify "t1" sBobLocked "bob" "old").1 :=
  locked_short_circuit toyVerify (fun _ _ => true) "t1" sBobLocked [] "bob" "old" "zzz"
    (by decide)

/-- C4: for not-locked usernames, a run on a non-existent username and a run
on an existing username with a wrong password both fail with the identical
error text `Invalid username or password` — the error message does not
reveal whether the username exists. -/
theorem enumeration_resistance (verify : String → String → Bool) (now : String)
    (sa sb : AuthState) (u1 p1 u2 p2 : String) (d : UserData)
    (h1 : is_account_locked sa u1 = false) (hu1 : lookupKey sa.users u1 = none)
    (h2 : is_account_locked sb u2 = false) (hu2 : lookupKey sb.users u2 = some d)
    (hv : verify p2 d.password = false) :
    (authenticate verify now sa u1 p1).1.error_message =
      (authenticate verify now sb u2 p2).1.error_message ∧
    (authenticate verify now sa u1 p1).1.error_message =
      some "Invalid username or password" ∧
    (authenticate verify now sa u1 p1).1.success = false ∧
    (authenticate verify now sb u2 p2).1.success = false := by
  rw [authenticate_absent verify now sa u1 p1 h1 hu1,
      authenticate_mismatch verify now sb u2 p2 d h2 hu2 hv]
  exact ⟨rfl, rfl, rfl, rfl⟩

/-- C4 witness: `authenticate` on the unknown username `ghost` over an empty
store and on the real user `alice` with a wrong password produce the same
error text. -/
theorem enumeration_resistance_witness :
    (authenticate toyVerify "t1" s0 "ghost" "x").1.error_message =
      (authenticate toyVerify "t1" sAlice "alice" "wrongpass").1.error_message ∧
    (authenticate toyVerify "t1" s0 "ghost" "x").1.error_message =
      some "Invalid username or password" ∧
    (authenticate toyVerify "t1" s0 "ghost" "x").1.success = false ∧
    (authenticate toyVerify "t1" sAlice "alice" "wrongpass").1.success = false :=
  enumeration_resistance toyVerify "t1" s0 sAlice "ghost" "x" "alice" "wrongpass"
    ⟨"H:pw", "viewer", "a@x.com"⟩ (by decide) (by decide) (by decide) (by decide)
    (by decide)

/-- C10: on a not-locked username with no user record, `authenticate`
records the failed attempt (count goes up by 1) but reports
`requires_captcha = false` even when that increment reaches the threshold;
the lockout surfaces only on the next call, which then short-circuits with
the locked result. -/
theorem absent_user_captcha_deferral (verify : String → String → Bool)
    (now : String) (s : AuthState) (u p : String)
    (hl : is_account_locked s u = false) (hu : lookupKey s.users u = none) :
    (authenticate verify now s u p).1.requires_captcha = false ∧
    (authenticate verify now s u p).1.success = false ∧
    attemptCount (authenticate verify now s u p).2 u = attemptCount s u + 1 ∧
    (3 ≤ attemptCount s u + 1 →
      (authenticate verify now (authenticate verify now s u p).2 u p).1 =
        ⟨false, none, some "Account locked due to multiple failed attempts", true⟩) := by
  rw [authenticate_absent verify now s u p hl hu]
  refine ⟨rfl, rfl,
    (attemptCount_log _ _ _).trans (attemptCount_record now s u), ?_⟩
  intro h3
  have hlock : is_account_locked
      (log_event (record_failed_attempt now s u)
        ("Failed login attempt for non-existent username: " ++ u)) u = true :=
    (is_account_locked_log _ _ _).trans ((locked_record_iff now s u).mpr h3)
  rw [authenticate_locked verify now _ u p hlock]

/-- C10 witness: `ghost` has no user record and 2 recorded attempts; the
third failure still answers `requires_captcha = false`, and the next call
short-circuits locked. -/
theorem absent_user_captcha_deferral_witness :
    (authenticate toyVerify "t1" sGhost2 "ghost" "x").1.requires_captcha = false ∧
    (authenticate toyVerify "t1" sGhost2 "ghost" "x").1.success = false ∧
    attemptCount (authenticate toyVerify "t1" sGhost2 "ghost" "x").2 "ghost" =
      attemptCount sGhost2 "ghost" + 1 ∧
    (3 ≤ attemptCount sGhost2 "ghost" + 1 →
      (authenticate toyVerify "t1"
          (authenticate toyVerify "t1" sGhost2 "ghost" "x").2 "ghost" "x").1 =
        ⟨false, none, some "Account locked due to multiple failed attempts", true⟩) :=
  absent_user_captcha_deferral toyVerify "t1" sGhost2 "ghost" "x"
    (by decide) (by decide)

/-- C3 counterexample: on the successful login of `alice`, the returned user
object carries `password_hash = "H:pw"`, which is exactly the hash stored in
the credential store — the stored password hash IS included in the returned
user object, contrary to the claim that it never is. -/
theorem success_projection_counterexample :
    (authenticate toyVerify "t1" sAlice "alice" "pw").1.success = true ∧
    ((authenticate toyVerify "t1" sAlice "alice" "pw").1.user.map User.password_hash) =
      some "H:pw" ∧
    (find_by_username sAlice "alice").map UserData.password = some "H:pw" := by
  decide

/-- C3 amended: on every successful `authenticate`, the returned user is
built from the stored record as username, email, role — and additionally the
stored password hash, which the code copies into the `password_hash` field
of the returned `User`. -/
theorem success_projection_amended (verify : String → String → Bool)
    (now : String) (s : AuthState) (u p : String)
    (h : (authenticate verify now s u p).1.success = true) :
    ∃ d, lookupKey s.users u = some d ∧
      (authenticate verify now s u p).1.user =
        some ⟨u, d.email, d.role, d.password⟩ := by
  cases hl : is_account_locked s u with
  | true =>
      rw [authenticate_locked verify now s u p hl] at h
      exact absurd h (by simp)
  | false =>
      cases hu : lookupKey s.users u with
      | none =>
          rw [authenticate_absent verify now s u p hl hu] at h
          exact absurd h (by simp)
      | some d =>
          cases hv : verify p d.password with
          | false =>
              rw [authenticate_mismatch verify now s u p d hl hu hv] at h
              exact absurd h (by simp)
          | true =>
              exact ⟨d, rfl, by rw [authenticate_match verify now s u p d hl hu hv]⟩

/-- C3 amended witness: the successful login of `alice` returns her stored
record's email, role and password hash. -/
theorem success_projection_amended_witness :
    ∃ d, lookupKey sAlice.users "alice" = some d ∧
      (authenticate toyVerify "t1" sAlice "alice" "pw").1.user =
        some ⟨"alice", d.email, d.role, d.password⟩ :=
  success_projection_amended toyVerify "t1" sAlice "alice" "pw" (by decide)

/-- C6 counterexample: `bob` is locked with 3 recorded attempts; the admin
password reset succeeds (returns `true`) yet the failed-attempt record for
`bob` is still present afterwards — the attempt counter is NOT cleared by
`admin_reset_password`, contrary to the claim. -/
theorem admin_reset_counterexample :
    (admin_reset_password toyHash sBobLocked "bob" "NewPass1!" "root").1 = true ∧
    get_attempts (admin_reset_password toyHash sBobLocked "bob" "NewPass1!" "root").2
      "bob" = some ⟨3, "t0"⟩ := by
  decide

/-- C6 amended: `admin_reset_password` never touches the failed-attempt
store at all — after any call, successful or not, the attempt records are
exactly as before (clearing a lockout requires `unlock_user` or a successful
login). -/
theorem admin_reset_keeps_attempts (hashp : String → String) (s : AuthState)
    (target newpw admin : String) :
    (admin_reset_password hashp s target newpw admin).2.attempts = s.attempts := by
  unfold admin_reset_password
  by_cases h1 : is_valid_password newpw
  · cases hu : lookupKey s.users target <;> simp [h1, hu, save_user, log_event]
  · simp [h1]

/-- C7 counterexample: `create_user` happily stores the role `superuser`,
which is neither `admin` nor `viewer` — the operations do not restrict the
role to the closed set. -/
theorem role_closed_set_counterexample :
    (create_user toyHash s0 "mallory" "m@x.com" "Passw0rd!" "superuser").1 = true ∧
    (lookupKey (create_user toyHash s0 "mallory" "m@x.com" "Passw0rd!" "superuser").2.users
      "mallory").map UserData.role = some "superuser" ∧
    "superuser" ≠ "admin" ∧ "superuser" ≠ "viewer" := by
  decide

/-- C7 amended: `create_user` and `update_user` store the caller-supplied
role verbatim: a successful `create_user` stores exactly the role argument,
and `update_user` with a truthy (non-empty) role stores exactly that role;
no restriction to the set containing `admin` and `viewer` is enforced by
these operations. -/
theorem role_passthrough (hashp : String → String) (s : AuthState)
    (u e p r : String) (eo : Option String) (r2 : String) :
    ((create_user hashp s u e p r).1 = true →
      (lookupKey (create_user hashp s u e p r).2.users u).map UserData.role =
        some r) ∧
    (r2 ≠ "" → (update_user s u eo (some r2)).1 = true →
      (lookupKey (update_user s u eo (some r2)).2.users u).map UserData.role =
        some r2) := by
  constructor
  · intro h
    unfold create_user at h ⊢
    by_cases h1 : user_exists s u
    · simp [h1] at h
    · by_cases h2 : is_valid_password p
      · by_cases h3 : matches_email e
        · simp [h1, h2, h3, save_user, log_event, lookup_setKey_self]
        · simp [h1, h2, h3] at h
      · simp [h1, h2] at h
  · intro hr h
    unfold update_user at h ⊢
    cases hu : lookupKey s.users u with
    | none => simp [hu] at h
    | some d => simp [hu, hr, save_user, log_event, lookup_setKey_self]

/-- C7 amended witness: creating `carol` as `viewer` stores role `viewer`,
and updating `alice` to `admin` stores role `admin`. -/
theorem role_passthrough_witness :
    (lookupKey (create_user toyHash s0 "carol" "c@x.com" "Passw0rd!" "viewer").2.users
      "carol").map UserData.role = some "viewer" ∧
    (lookupKey (update_user sAlice "alice" none (some "admin")).2.users
      "alice").map UserData.role = some "admin" :=
  ⟨(role_passthrough toyHash s0 "carol" "c@x.com" "Passw0rd!" "viewer" none "x").1
     (by decide),
   (role_passthrough toyHash sAlice "alice" "e" "p" "r" none "admin").2
     (by decide) (by decide)⟩

/-- C8: `unlock_user` on a username with no attempt record returns `false`
and changes nothing; on a username with a record it returns `true`, removes
that record (leaving every other username's record alone), appends exactly
the admin-unlock audit message and leaves the user store unchanged. -/
theorem unlock_user_spec (s : AuthState) (u a : String) :
    (lookupKey s.attempts u = none → unlock_user s u a = (false, s)) ∧
    (∀ d, lookupKey s.attempts u = some d →
      (unlock_user s u a).1 = true ∧
      lookupKey (unlock_user s u a).2.attempts u = none ∧
      (∀ k, k ≠ u → lookupKey (unlock_user s u a).2.attempts k =
        lookupKey s.attempts k) ∧
      (unlock_user s u a).2.audit =
        s.audit ++ ["Admin " ++ a ++ " unlocked user: " ++ u] ∧
      (unlock_user s u a).2.users = s.users) := by
  constructor
  · intro h
    unfold unlock_user
    rw [h]
  · intro d h
    unfold unlock_user
    rw [h]
    refine ⟨rfl, ?_, ?_, rfl, rfl⟩
    · simpa [clear_attempts, log_event] using lookup_delKey_self s.attempts u
    · intro k hk
      simpa [clear_attempts, log_event] using lookup_delKey_ne s.attempts u k hk

/-- C8 witness: unlocking the unknown `nobody` fails with no state change;
unlocking the locked `bob` succeeds, removes his attempt record and logs the
admin-unlock message. -/
theorem unlock_user_spec_witness :
    unlock_user sBobLocked "nobody" "root" = (false, sBobLocked) ∧
    (unlock_user sBobLocked "bob" "root").1 = true ∧
    lookupKey (unlock_user sBobLocked "bob" "root").2.attempts "bob" = none ∧
    (unlock_user sBobLocked "bob" "root").2.audit =
      sBobLocked.audit ++ ["Admin " ++ "root" ++ " unlocked user: " ++ "bob"] ∧
    (unlock_user sBobLocked "bob" "root").2.users = sBobLocked.users := by
  refine ⟨(unlock_user_spec sBobLocked "nobody" "root").1 (by decide), ?_⟩
  have h := (unlock_user_spec sBobLocked "bob" "root").2 ⟨3, "t0"⟩ (by decide)
  exact ⟨h.1, h.2.1, h.2.2.2.1, h.2.2.2.2⟩

end EMA
